import Mathlib

/-!
Verification development for the Dspx-Monitor data-processing core
(`core.py`, with the duplicated statistics routine of `app.py`).

The Python code is shallowly embedded: pandas series of coerced channel
values become `List (Option ℚ)` (a `none` cell models `NaN`), dataframes
become association lists from column names to cell lists, the filesystem
state touched by the signal functions becomes an explicit `SignalState`,
and the data-directory contents probed by the catalog become a presence
predicate indexed by calendar day number.  Python `float(...)` /
`pd.to_numeric(..., errors="coerce")` string coercion is modelled by
`pyFloat`, which parses plain decimal literals (the format actually
produced by the device logs and by `str(timestamp)`).
-/

set_option maxRecDepth 10000

/-! ## Python number parsing model -/

/-- Numeric value of a list of decimal digit characters (most significant first). -/
def digitsVal (ds : List Char) : ℕ :=
  ds.foldl (fun acc c => 10 * acc + (c.toNat - 48)) 0

/-- Model of Python `float(s)` / `pd.to_numeric(s, errors="coerce")` restricted to
plain decimal literals: optional sign, integer digits, optional fractional part.
Any other content yields `none` (Python raises `ValueError`, respectively
coerces to `NaN`). -/
def pyFloat (s : String) : Option ℚ :=
  let cs0 := s.data
  let sp : ℚ × List Char :=
    match cs0 with
    | '-' :: rest => (-1, rest)
    | '+' :: rest => (1, rest)
    | _ => (1, cs0)
  let ip := sp.2.takeWhile Char.isDigit
  let rest1 := sp.2.dropWhile Char.isDigit
  match rest1 with
  | [] => if ip = [] then none else some (sp.1 * (digitsVal ip : ℚ))
  | '.' :: rest2 =>
    let fp := rest2.takeWhile Char.isDigit
    let rest3 := rest2.dropWhile Char.isDigit
    if rest3 = [] ∧ (ip ≠ [] ∨ fp ≠ []) then
      some (sp.1 * ((digitsVal ip : ℚ) + (digitsVal fp : ℚ) / (10 : ℚ) ^ fp.length))
    else none
  | _ => none

/-- Model of Python `s.strip()`: drop whitespace from both ends. -/
def pyStrip (s : String) : String :=
  String.mk (((s.data.dropWhile Char.isWhitespace).reverse.dropWhile Char.isWhitespace).reverse)

/-- Model of Python `path.replace(".txt", "")`: remove every occurrence of
`.txt`, scanning left to right. -/
def stripTxtOcc : List Char → List Char
  | '.' :: 't' :: 'x' :: 't' :: rest => stripTxtOcc rest
  | c :: rest => c :: stripTxtOcc rest
  | [] => []

/-- The filename stem: `os.path.basename(filepath).replace(".txt", "")`
applied to a basename. -/
def stemOf (path : String) : String := String.mk (stripTxtOcc path.data)

/-! ## Calendar model (shared by the catalog, the aggregator and the filter) -/

/-- Leap-year rule used by Python's `datetime`. -/
def isLeap (y : ℕ) : Bool := y % 4 = 0 ∧ (y % 100 ≠ 0 ∨ y % 400 = 0)

/-- Number of days of month `m` in year `y`. -/
def daysInMonth (m y : ℕ) : ℕ :=
  if m = 2 then (if isLeap y then 29 else 28)
  else if m = 4 ∨ m = 6 ∨ m = 9 ∨ m = 11 then 30
  else 31

/-- Two decimal digit characters as a number, `none` if either is not a digit. -/
def d2 (a b : Char) : Option ℕ :=
  if a.isDigit ∧ b.isDigit then some (10 * (a.toNat - 48) + (b.toNat - 48)) else none

/-- Four decimal digit characters as a number, `none` if any is not a digit. -/
def d4 (a b c d : Char) : Option ℕ :=
  if a.isDigit ∧ b.isDigit ∧ c.isDigit ∧ d.isDigit then
    some (1000 * (a.toNat - 48) + 100 * (b.toNat - 48) + 10 * (c.toNat - 48) + (d.toNat - 48))
  else none

/-- A wall-clock datetime as produced by parsing `YYYY-MM-DD HH:MM:SS`. -/
structure DateTime where
  year : ℕ
  month : ℕ
  day : ℕ
  hour : ℕ
  minute : ℕ
  second : ℕ
deriving DecidableEq, Repr

/-- Strictly monotone encoding of a datetime; comparing keys is comparing
datetimes chronologically (fields are within their calendar ranges). -/
def DateTime.key (t : DateTime) : ℕ :=
  ((((t.year * 13 + t.month) * 32 + t.day) * 24 + t.hour) * 60 + t.minute) * 60 + t.second

/-- Model of `pd.to_datetime(s, format="%Y-%m-%d %H:%M:%S", errors="coerce")`
on one cell: fixed-width `YYYY-MM-DD HH:MM:SS`, with calendar validation;
`none` models `NaT`. -/
def parseDateTime (s : String) : Option DateTime :=
  match s.data with
  | [y1, y2, y3, y4, c1, m1, m2, c2, a1, a2, c3, h1, h2, c4, n1, n2, c5, e1, e2] =>
    if c1 = '-' ∧ c2 = '-' ∧ c3 = ' ' ∧ c4 = ':' ∧ c5 = ':' then
      match d4 y1 y2 y3 y4, d2 m1 m2, d2 a1 a2, d2 h1 h2, d2 n1 n2, d2 e1 e2 with
      | some y, some mo, some dd, some h, some mi, some ss =>
        if 1 ≤ mo ∧ mo ≤ 12 ∧ 1 ≤ dd ∧ dd ≤ daysInMonth mo y ∧ h ≤ 23 ∧ mi ≤ 59 ∧ ss ≤ 59 then
          some ⟨y, mo, dd, h, mi, ss⟩
        else none
      | _, _, _, _, _, _ => none
    else none
  | _ => none

/-- Left-pad a number to two digits. -/
def pad2 (n : ℕ) : String := if n < 10 then "0" ++ toString n else toString n

/-- Left-pad a number to four digits. -/
def pad4 (n : ℕ) : String :=
  if n < 10 then "000" ++ toString n
  else if n < 100 then "00" ++ toString n
  else if n < 1000 then "0" ++ toString n
  else toString n

/-- Model of `datetime.strptime(stem, "%m%d%y").strftime("%Y-%m-%d")` on a
six-digit filename stem: `MMDDYY` with calendar validation and Python's
two-digit-year pivot (00–68 ↦ 2000s, 69–99 ↦ 1900s); `none` models
`ValueError`. -/
def parseFileDate (stem : String) : Option String :=
  match stem.data with
  | [a, b, c, d, e, f] =>
    match d2 a b, d2 c d, d2 e f with
    | some mo, some dd, some yy =>
      let y := if yy ≤ 68 then 2000 + yy else 1900 + yy
      if 1 ≤ mo ∧ mo ≤ 12 ∧ 1 ≤ dd ∧ dd ≤ daysInMonth mo y then
        some (pad4 y ++ "-" ++ pad2 mo ++ "-" ++ pad2 dd)
      else none
    | _, _, _ => none
  | _ => none

/-! ## Change signal (`write_refresh_signal` / `read_refresh_signal` /
`clear_refresh_signal`, core.py lines 460–487)

The signal file's state is `content`: `none` when the file is absent,
`some s` when it holds text `s`.  A written float timestamp is represented
by its decimal string (Python guarantees `float(str(x)) == x`, so equality
through the representation is the round-trip-precision statement). -/

structure SignalState where
  content : Option String
deriving DecidableEq

/-- Embeds `write_refresh_signal`: overwrite the file with the textual
timestamp, whatever the previous state was. -/
def write_refresh_signal (_prev : SignalState) (ts : String) : SignalState :=
  { content := some ts }

/-- Embeds `read_refresh_signal`: if the file exists, `float(f.read().strip())`,
with any parse failure swallowed to `None`. -/
def read_refresh_signal (st : SignalState) : Option ℚ :=
  match st.content with
  | none => none
  | some s => pyFloat (pyStrip s)

/-- Embeds `clear_refresh_signal`: remove the file if present. -/
def clear_refresh_signal (_prev : SignalState) : SignalState :=
  { content := none }

/-! ## File catalog (`get_files_for_date_range`, core.py lines 128–142)

Calendar dates are modelled by their ordinal day numbers (adding one day is
adding `1`); `present d` models `os.path.exists` of the exactly-named
`MMDDYY.txt` file of day `d` in the data directory. -/

/-- The `while current <= end_date` loop of `get_files_for_date_range`. -/
def filesLoop (present : ℕ → Bool) (b : ℕ) (current : ℕ) : List ℕ :=
  if _h : current ≤ b then
    (if present current then [current] else []) ++ filesLoop present b (current + 1)
  else []
  termination_by b + 1 - current
  decreasing_by omega

/-- Embeds `get_files_for_date_range`: walk every calendar day from
`start_date` to `end_date` inclusive and keep the days whose file exists. -/
def get_files_for_date_range (present : ℕ → Bool) (start_date end_date : ℕ) : List ℕ :=
  filesLoop present end_date start_date

/-! ## Secrets loading (`load_secrets`, core.py lines 72–100)

The process environment is a partial map `env`, the `slack.secret` file is
`none` when absent and `some lines` otherwise; the built Python dict is an
insertion-ordered association list queried with `List.lookup`. -/

def secret_keys : List String := ["SLACK_BOT_TOKEN", "SLACK_APP_TOKEN", "SLACK_SIGNING_SECRET"]

/-- Python `s.split(sep, 1)` on a character list: `none` when `sep` does not
occur (Python returns the one-element list), otherwise the pieces before and
after the first occurrence. -/
def splitFirstOn (sep : Char) : List Char → Option (List Char × List Char)
  | [] => none
  | c :: rest =>
    if c = sep then some ([], rest)
    else (splitFirstOn sep rest).map (fun p => (c :: p.1, p.2))

/-- One iteration of the secrets-file loop: skip lines whose stripped text
starts with `#`, split the stripped line on the first `=`, and record the
stripped key/value pair when the key is not already present. -/
def processSecretLine (d : List (String × String)) (line : String) : List (String × String) :=
  if (pyStrip line).data.head? = some '#' then d
  else
    match splitFirstOn '=' (pyStrip line).data with
    | none => d
    | some kv =>
      let k := pyStrip (String.mk kv.1)
      let v := pyStrip (String.mk kv.2)
      if (d.lookup k).isSome then d else d ++ [(k, v)]

/-- One iteration of the environment loop of `load_secrets`:
`env_value = os.environ.get(key); if env_value: secrets[key] = env_value`
(an empty string is falsy and skipped). -/
def envStep (env : String → Option String) (d : List (String × String)) (key : String) :
    List (String × String) :=
  match env key with
  | some v => if v ≠ "" then d ++ [(key, v)] else d
  | none => d

/-- Embeds `load_secrets`: first the environment values of the three secret
keys (skipped when empty, Python truthiness), then the file lines for keys
not already set. -/
def load_secrets (env : String → Option String) (file : Option (List String)) :
    List (String × String) :=
  let s0 := secret_keys.foldl (envStep env) []
  match file with
  | none => s0
  | some lines => lines.foldl processSecretLine s0

/-! ## Statistics engine (`calculate_daily_stats`)

A coerced channel series is a `List (Option ℚ)`: `pd.to_numeric(df[col],
errors="coerce")` maps every cell through `pyFloat`, `none` modelling `NaN`.
A dataframe is an association list from column names to raw string cells.
The routine exists twice in the repository — core.py lines 286–313 and the
duplicated app.py lines 507–536 — so it is embedded twice, under the `Core`
and `App` namespaces. -/

/-- Per-channel statistics dict entry.  `current` is `Option (Option ℚ)`:
the outer `none` models Python `None` (empty series), an inner `none`
models a `NaN` value. -/
structure ChannelStats where
  min : Option ℚ
  max : Option ℚ
  mean : Option ℚ
  current : Option (Option ℚ)
  avg_rate_per_min : ℚ
deriving DecidableEq, Repr

/-- Model of `pandas.Series.min` (skips `NaN`; `NaN`, i.e. `none`, on an
all-`NaN` or empty series). -/
def seriesMin (values : List (Option ℚ)) : Option ℚ :=
  match values.filterMap id with
  | [] => none
  | x :: xs => some (xs.foldl min x)

/-- Model of `pandas.Series.max` (skips `NaN`). -/
def seriesMax (values : List (Option ℚ)) : Option ℚ :=
  match values.filterMap id with
  | [] => none
  | x :: xs => some (xs.foldl max x)

/-- Model of `pandas.Series.mean` (skips `NaN`). -/
def seriesMean (values : List (Option ℚ)) : Option ℚ :=
  match values.filterMap id with
  | [] => none
  | x :: xs => some ((x :: xs).sum / ((x :: xs).length : ℚ))

/-- Python `range(0, stop, step)` for positive `step`. -/
def pyRange (stop step : ℕ) : List ℕ :=
  (List.range ((stop + step - 1) / step)).map (· * step)

namespace Core

/-- Embeds core.py `TEMP_COLUMNS`. -/
def TEMP_COLUMNS : List String := ["full range", "still", "Platine 4K"]

/-- The window start indices of the rate loop:
`range(0, len(values) - samples_per_15min, samples_per_15min)` with
`samples_per_15min = 30`. -/
def rateStarts (values : List (Option ℚ)) : List ℕ :=
  pyRange (values.length - 30) 30

/-- One iteration of the rate loop:
`(values.iloc[i + 30] - values.iloc[i]) / 15.0`, kept only when
`pd.notna(rate)`, i.e. when both endpoints are numeric. -/
def rateAt (values : List (Option ℚ)) (i : ℕ) : Option ℚ :=
  match values.get? (i + 30), values.get? i with
  | some (some b), some (some a) => some ((b - a) / 15)
  | _, _ => none

/-- The list `rates` accumulated by the loop of core.py lines 304–308. -/
def windowRates (values : List (Option ℚ)) : List ℚ :=
  (rateStarts values).filterMap (rateAt values)

/-- The `avg_rate_per_min` entry: `sum(rates) / len(rates) if rates else 0`
when at least 30 samples exist, else `0` (core.py lines 301–311). -/
def avgRatePerMin (values : List (Option ℚ)) : ℚ :=
  if 30 ≤ values.length then
    let rates := windowRates values
    if rates = [] then 0 else rates.sum / (rates.length : ℚ)
  else 0

/-- Embeds `calculate_daily_stats` (core.py lines 286–313): for each
temperature column present in the dataframe, coerce the cells and build the
statistics entry. -/
def calculate_daily_stats (df : List (String × List String)) : List (String × ChannelStats) :=
  TEMP_COLUMNS.filterMap (fun col =>
    (df.lookup col).map (fun cells =>
      let values := cells.map pyFloat
      (col,
        { min := seriesMin values
          max := seriesMax values
          mean := seriesMean values
          current := values.getLast?
          avg_rate_per_min := avgRatePerMin values })))

end Core

namespace App

/-- Embeds app.py `TEMP_COLUMNS` (line 109). -/
def TEMP_COLUMNS : List String := ["full range", "still", "Platine 4K"]

/-- The window start indices of the rate loop of app.py line 528. -/
def rateStarts (values : List (Option ℚ)) : List ℕ :=
  pyRange (values.length - 30) 30

/-- One iteration of the rate loop of app.py lines 529–531. -/
def rateAt (values : List (Option ℚ)) (i : ℕ) : Option ℚ :=
  match values.get? (i + 30), values.get? i with
  | some (some b), some (some a) => some ((b - a) / 15)
  | _, _ => none

/-- The list `rates` accumulated by the loop of app.py lines 527–531. -/
def windowRates (values : List (Option ℚ)) : List ℚ :=
  (rateStarts values).filterMap (rateAt values)

/-- The `avg_rate_per_min` entry of app.py lines 525–534. -/
def avgRatePerMin (values : List (Option ℚ)) : ℚ :=
  if 30 ≤ values.length then
    let rates := windowRates values
    if rates = [] then 0 else rates.sum / (rates.length : ℚ)
  else 0

/-- Embeds the duplicated `calculate_daily_stats` of app.py lines 507–536. -/
def calculate_daily_stats (df : List (String × List String)) : List (String × ChannelStats) :=
  TEMP_COLUMNS.filterMap (fun col =>
    (df.lookup col).map (fun cells =>
      let values := cells.map pyFloat
      (col,
        { min := seriesMin values
          max := seriesMax values
          mean := seriesMean values
          current := values.getLast?
          avg_rate_per_min := avgRatePerMin values })))

end App

/-! ## Aggregator (`load_multiple_files`, core.py lines 219–247)

A source file is its basename together with the result of
`load_data_file` (`none` on load failure).  A loaded frame records whether
the `time_str` column exists (it does exactly when the raw file had an
`heures` column) and its rows; a row is its time-of-day string and its
remaining cells. -/

structure SrcRow where
  time_str : String
  cells : List String
deriving DecidableEq, Repr

structure SrcDF where
  hasTimeStr : Bool
  rows : List SrcRow
deriving DecidableEq, Repr

structure SrcFile where
  path : String
  load : Option SrcDF
deriving DecidableEq, Repr

/-- An aggregated row: the original cells plus the `file_date` and
`datetime_str` columns added by `load_multiple_files`. -/
structure OutRow where
  time_str : Option String
  cells : List String
  file_date : String
  datetime_str : Option String
deriving DecidableEq, Repr

/-- The per-file body of the `load_multiple_files` loop (core.py lines
229–242): strip `.txt` from the basename, try `%m%d%y` on the stem; on
success tag every row with the `%Y-%m-%d` date and, when a `time_str`
column exists, with `datetime_str = file_date + " " + time_str`; on
`ValueError` use the raw stem as `file_date` and fall back to the
time-of-day alone. -/
def augmentFile (f : SrcFile) (df : SrcDF) : List OutRow :=
  let stem := stemOf f.path
  match parseFileDate stem with
  | some fd =>
    df.rows.map (fun r =>
      { time_str := if df.hasTimeStr then some r.time_str else none
        cells := r.cells
        file_date := fd
        datetime_str := if df.hasTimeStr then some (fd ++ " " ++ r.time_str) else none })
  | none =>
    df.rows.map (fun r =>
      { time_str := if df.hasTimeStr then some r.time_str else none
        cells := r.cells
        file_date := stem
        datetime_str := if df.hasTimeStr then some r.time_str else none })

/-- Embeds `load_multiple_files`: `None` on an empty input list, otherwise
collect the successfully loaded frames (each augmented with its file date),
`None` again if none loaded, else their concatenation in input order. -/
def load_multiple_files (files : List SrcFile) : Option (List OutRow) :=
  if files = [] then none
  else
    let all_dfs := files.filterMap (fun f => f.load.map (augmentFile f))
    if all_dfs = [] then none
    else some all_dfs.flatten

/-! ## Time-window filter (`filter_to_last_24_hours`, core.py lines 250–279)

A dataset here is the flag recording whether the composite `datetime_str`
column exists, plus the rows; each row carries its `datetime_str` cell and
an opaque payload standing for the remaining columns.  `cutoff` is the
precomputed `now - timedelta(hours=24)`. -/

structure FilterRow where
  dtStr : String
  payload : ℕ
deriving DecidableEq, Repr

structure FilterDF where
  hasDatetimeStr : Bool
  rows : List FilterRow
deriving DecidableEq, Repr

/-- The row mask of core.py line 267: the parsed datetime is `>= cutoff`;
a `NaT` (failed parse) compares false and the row is dropped. -/
def keepRow (cutoff : DateTime) (r : FilterRow) : Bool :=
  match parseDateTime r.dtStr with
  | some t => cutoff.key ≤ t.key
  | none => false

/-- Embeds `filter_to_last_24_hours`: pass an empty dataframe through,
pass a dataframe lacking `datetime_str` through, otherwise keep exactly
the rows whose parsed datetime is at or after the cutoff. -/
def filter_to_last_24_hours (df : FilterDF) (cutoff : DateTime) : FilterDF :=
  if df.rows.length = 0 then df
  else if ¬ df.hasDatetimeStr then df
  else { df with rows := df.rows.filter (keepRow cutoff) }

/-! ## Claim-side comparison definitions and concrete fixtures

`claimedPartitionRates` / `claimedAvgRate` transcribe what claim C1 asserts
about the rate computation (a rate for EVERY complete non-overlapping
30-sample window, endpoints the window's own first and last samples, so 60
windows for 1800 samples); they are written from the claim's words, not
from the source, to be compared against `Core.avgRatePerMin`.
`specLastNumeric` likewise transcribes claim C2's "last value in row order
that coerces to a number". -/

/-- Claim C1's asserted per-window rates: one rate per complete window
`[30k, 30k+29]`, value `(value_at_window_end - value_at_window_start) / 15`. -/
def claimedPartitionRates (values : List (Option ℚ)) : List ℚ :=
  (List.range (values.length / 30)).filterMap (fun k =>
    match values.get? (30 * k + 29), values.get? (30 * k) with
    | some (some b), some (some a) => some ((b - a) / 15)
    | _, _ => none)

/-- Claim C1's asserted `avg_rate_per_min`: the arithmetic mean of the
per-window rates, `0` when fewer than 30 samples exist. -/
def claimedAvgRate (values : List (Option ℚ)) : ℚ :=
  if 30 ≤ values.length then
    let rates := claimedPartitionRates values
    if rates = [] then 0 else rates.sum / (rates.length : ℚ)
  else 0

/-- Claim C2's asserted `current`: the last cell that coerces to a number,
skipping trailing non-numeric cells (`none` only when no cell coerces). -/
def specLastNumeric (cells : List String) : Option ℚ :=
  (cells.filterMap pyFloat).getLast?

/-- A strictly increasing channel: `n` numeric samples `0, 1, 2, …`. -/
def rampValues (n : ℕ) : List (Option ℚ) :=
  (List.range n).map (fun (j : ℕ) => (some (j : ℚ) : Option ℚ))

/-! ## Theorems

Batteries seals the `Rat` field operations behind `@[irreducible]`; they are
restored to normal transparency locally so that concrete rational
computations can be discharged by `decide`. -/

section ClaimTheorems

attribute [local semireducible] Rat.add Rat.sub Rat.mul Rat.inv Rat.ofScientific

theorem filesLoop_eq_filter (present : ℕ → Bool) :
    ∀ n b current, b + 1 - current = n →
      filesLoop present b current = (List.range' current n).filter present := by
  intro n
  induction n with
  | zero =>
    intro b current h
    unfold filesLoop
    rw [dif_neg (by omega)]
    rfl
  | succ n ih =>
    intro b current h
    unfold filesLoop
    rw [dif_pos (by omega), List.range'_succ, List.filter_cons, ih b (current + 1) (by omega)]
    by_cases hp : present current
    · simp [hp]
    · simp [hp]

theorem mem_pyRange {stop step i : ℕ} (hs : 0 < step) :
    i ∈ pyRange stop step ↔ step ∣ i ∧ i < stop := by
  unfold pyRange
  rw [List.mem_map]
  constructor
  · rintro ⟨k, hk, rfl⟩
    rw [List.mem_range] at hk
    have h1 : k + 1 ≤ (stop + step - 1) / step := hk
    rw [Nat.le_div_iff_mul_le hs, Nat.succ_mul] at h1
    have hstop : 1 ≤ stop := by
      rcases Nat.eq_zero_or_pos stop with h0 | h0
      · subst h0
        have hz : (0 + step - 1) / step = 0 := Nat.div_eq_of_lt (by omega)
        omega
      · exact h0
    have hcomm : step * k = k * step := Nat.mul_comm step k
    exact ⟨⟨k, hcomm.symm⟩, by omega⟩
  · rintro ⟨⟨k, rfl⟩, hlt⟩
    refine ⟨k, ?_, Nat.mul_comm k step⟩
    rw [List.mem_range, Nat.lt_iff_add_one_le, Nat.le_div_iff_mul_le hs, Nat.succ_mul]
    have hcomm : step * k = k * step := Nat.mul_comm step k
    omega

theorem filterMap_length_all_isSome {α β : Type} (f : α → Option β) :
    ∀ l : List α, (∀ a ∈ l, (f a).isSome) → (l.filterMap f).length = l.length := by
  intro l
  induction l with
  | nil => intro _; rfl
  | cons a l ih =>
    intro h
    have ha := h a (by simp)
    rcases hf : f a with _ | b
    · rw [hf] at ha; simp at ha
    · simp [List.filterMap_cons, hf, ih (fun x hx => h x (by simp [hx]))]

theorem lookup_statsMap {β : Type} (K : List String) (m : String → Option (List String))
    (g : String → List String → β) {col : String} (hmem : col ∈ K)
    {v : List String} (hv : m col = some v) :
    (K.filterMap (fun k => (m k).map (fun x => (k, g k x)))).lookup col = some (g col v) := by
  induction K with
  | nil => simp at hmem
  | cons k K ih =>
    rw [List.filterMap_cons]
    by_cases hc : col = k
    · subst hc
      rw [hv]
      simp [List.lookup]
    · rcases List.mem_cons.mp hmem with h | h
      · exact absurd h hc
      · rcases hk : m k with _ | x
        · exact ih h
        · simpa [List.lookup, show (col == k) = false from beq_eq_false_iff_ne.mpr hc] using ih h

/-- C8: writing the signal and immediately reading it back returns the
written timestamp (exactly, through its decimal representation — Python's
`float(str(x)) == x` round-trip); clearing then reading returns `None`; and
reading any malformed content returns `None` (the model's read function is
total, so no exception can escape). -/
theorem C8_signal_roundtrip :
    (∀ (st : SignalState) (s : String) (v : ℚ), pyFloat (pyStrip s) = some v →
        read_refresh_signal (write_refresh_signal st s) = some v)
    ∧ (∀ st : SignalState, read_refresh_signal (clear_refresh_signal st) = none)
    ∧ (∀ s : String, pyFloat (pyStrip s) = none → read_refresh_signal ⟨some s⟩ = none) :=
  ⟨fun _ _ _ h => h, fun _ => rfl, fun _ h => h⟩

/-- Witness for C8 at a concrete timestamp string and a concrete malformed
content. -/
theorem C8_signal_roundtrip_witness :
    read_refresh_signal (write_refresh_signal ⟨none⟩ "1728722400.5") = some ((3457444801 : ℚ) / 2)
    ∧ read_refresh_signal (clear_refresh_signal ⟨some "1728722400.5"⟩) = none
    ∧ read_refresh_signal ⟨some "no signal"⟩ = none :=
  ⟨C8_signal_roundtrip.1 ⟨none⟩ "1728722400.5" _ (by decide),
   C8_signal_roundtrip.2.1 ⟨some "1728722400.5"⟩,
   C8_signal_roundtrip.2.2 "no signal" (by decide)⟩

/-- C9: for dates `a ≤ b`, `get_files_for_date_range` returns exactly the
days in the inclusive range `[a, b]` whose file is present, in strictly
ascending order; absent days are skipped without error (the loop is total). -/
theorem C9_files_for_range (present : ℕ → Bool) (a b : ℕ) (hab : a ≤ b) :
    (∀ d, d ∈ get_files_for_date_range present a b ↔
        (a ≤ d ∧ d ≤ b ∧ present d = true))
    ∧ (get_files_for_date_range present a b).Pairwise (· < ·) := by
  have he : get_files_for_date_range present a b
      = (List.range' a (b + 1 - a)).filter present :=
    filesLoop_eq_filter present (b + 1 - a) b a rfl
  constructor
  · intro d
    rw [he, List.mem_filter, List.mem_range'_1]
    constructor
    · rintro ⟨⟨h1, h2⟩, h3⟩
      exact ⟨h1, by omega, h3⟩
    · rintro ⟨h1, h2, h3⟩
      exact ⟨⟨h1, by omega⟩, h3⟩
  · rw [he]
    exact (List.pairwise_lt_range' a (b + 1 - a)).sublist (List.filter_sublist _)

/-- Witness for C9 on the range `[4, 8]` with files present on days 5 and 7. -/
theorem C9_files_for_range_witness :
    (5 ∈ get_files_for_date_range (fun d => d == 5 || d == 7) 4 8)
    ∧ (6 ∉ get_files_for_date_range (fun d => d == 5 || d == 7) 4 8)
    ∧ (get_files_for_date_range (fun d => d == 5 || d == 7) 4 8).Pairwise (· < ·) := by
  have h := C9_files_for_range (fun d => d == 5 || d == 7) 4 8 (by decide)
  exact ⟨(h.1 5).mpr (by decide), fun hx => absurd ((h.1 6).mp hx).2.2 (by decide), h.2⟩

theorem keepRow_eq_true (cutoff : DateTime) (r : FilterRow) :
    keepRow cutoff r = true ↔
      ∃ t, parseDateTime r.dtStr = some t ∧ cutoff.key ≤ t.key := by
  unfold keepRow
  rcases hp : parseDateTime r.dtStr with _ | t
  · simp
  · simp [decide_eq_true_iff]

/-- C3: the 24-hour trailing filter keeps exactly the rows whose
`datetime_str` parses in the fixed `YYYY-MM-DD HH:MM:SS` format with a
parsed datetime at or after the cutoff `now - 24h` (boundary inclusive);
unparseable rows are excluded; a dataset without the composite column is
returned unchanged; the function is total, so it never raises. -/
theorem C3_filter_last24 (df : FilterDF) (cutoff : DateTime) :
    (df.hasDatetimeStr = false → filter_to_last_24_hours df cutoff = df)
    ∧ (df.hasDatetimeStr = true →
        (filter_to_last_24_hours df cutoff).hasDatetimeStr = true
        ∧ (filter_to_last_24_hours df cutoff).rows = df.rows.filter (keepRow cutoff)
        ∧ (∀ r, r ∈ (filter_to_last_24_hours df cutoff).rows ↔
            (r ∈ df.rows ∧ ∃ t, parseDateTime r.dtStr = some t ∧ cutoff.key ≤ t.key))) := by
  constructor
  · intro hno
    unfold filter_to_last_24_hours
    rcases hr : df.rows.length with _ | n
    · simp
    · simp [hr, hno]
  · intro hyes
    have hrows : (filter_to_last_24_hours df cutoff).rows = df.rows.filter (keepRow cutoff) := by
      unfold filter_to_last_24_hours
      rcases hr : df.rows.length with _ | n
      · have : df.rows = [] := List.length_eq_zero.mp hr
        simp [this]
      · simp [hr, hyes]
    have hcol : (filter_to_last_24_hours df cutoff).hasDatetimeStr = true := by
      unfold filter_to_last_24_hours
      rcases hr : df.rows.length with _ | n
      · simpa using hyes
      · simp [hr, hyes]
    refine ⟨hcol, hrows, fun r => ?_⟩
    rw [hrows, List.mem_filter]
    exact and_congr_right fun _ => keepRow_eq_true cutoff r

/-- Witness for C3: a dataset with one row exactly at the cutoff (kept —
the boundary is inclusive), one row 24h and a second older (dropped), and
one unparseable row (dropped); plus a dataset without the column, returned
unchanged. -/
theorem C3_filter_last24_witness :
    (filter_to_last_24_hours
        ⟨true, [⟨"2024-01-01 10:00:00", 0⟩, ⟨"2023-12-31 09:59:59", 1⟩, ⟨"garbage", 2⟩]⟩
        ⟨2024, 1, 1, 10, 0, 0⟩).rows = [⟨"2024-01-01 10:00:00", 0⟩]
    ∧ filter_to_last_24_hours ⟨false, [⟨"x", 0⟩]⟩ ⟨2024, 1, 1, 10, 0, 0⟩
        = ⟨false, [⟨"x", 0⟩]⟩ := by
  constructor
  · have h := (C3_filter_last24
      ⟨true, [⟨"2024-01-01 10:00:00", 0⟩, ⟨"2023-12-31 09:59:59", 1⟩, ⟨"garbage", 2⟩]⟩
      ⟨2024, 1, 1, 10, 0, 0⟩).2 rfl
    rw [h.2.1]
    decide
  · exact (C3_filter_last24 ⟨false, [⟨"x", 0⟩]⟩ ⟨2024, 1, 1, 10, 0, 0⟩).1 rfl

/-- C4: `load_multiple_files` returns `None` exactly when the input list is
empty or every file's load failed; otherwise it returns the concatenation
(in input order) of the successfully loaded files' augmented rows.  The
model function is total, so no exception escapes, and the iff rules out an
empty-but-present dataset when zero files loaded. -/
theorem C4_load_multiple (files : List SrcFile) :
    (load_multiple_files files = none ↔ (files = [] ∨ ∀ f ∈ files, f.load = none))
    ∧ (∀ rows, load_multiple_files files = some rows →
        rows = (files.filterMap (fun f => f.load.map (augmentFile f))).flatten) := by
  have hiff : (files.filterMap (fun f => f.load.map (augmentFile f)) = [])
      ↔ (∀ f ∈ files, f.load = none) := by
    rw [List.filterMap_eq_nil_iff]
    exact forall₂_congr fun f _ => Option.map_eq_none'
  unfold load_multiple_files
  by_cases hf : files = []
  · simp [hf]
  · rw [if_neg hf]
    by_cases hd : files.filterMap (fun f => f.load.map (augmentFile f)) = []
    · rw [if_pos hd]
      exact ⟨iff_of_true rfl (Or.inr (hiff.mp hd)), fun rows h => by cases h⟩
    · rw [if_neg hd]
      refine ⟨iff_of_false (by simp) ?_, fun rows h => ?_⟩
      · exact fun h => h.elim (fun h1 => hf h1) (fun hall => hd (hiff.mpr hall))
      · cases h
        rfl

/-- Witness for C4: an all-failed list gives `None`; one loaded file among
a failed one gives exactly the loaded rows. -/
theorem C4_load_multiple_witness :
    load_multiple_files [⟨"a.txt", none⟩] = none
    ∧ load_multiple_files [] = none
    ∧ load_multiple_files [⟨"x", some ⟨false, [⟨"", ["7"]⟩]⟩⟩, ⟨"a.txt", none⟩]
        = some [⟨none, ["7"], "x", none⟩] := by
  refine ⟨(C4_load_multiple [⟨"a.txt", none⟩]).1.mpr (Or.inr ?_),
    (C4_load_multiple []).1.mpr (Or.inl rfl), by decide⟩
  intro f hf
  rcases List.mem_singleton.mp hf with rfl
  rfl

/-- C5: during aggregation, when the `.txt`-stripped filename stem parses as
`MMDDYY`, every row of that file is tagged with the `YYYY-MM-DD` file date
and (when a time-of-day column exists) `datetime_str = file_date + " " +
time_str`; when the stem fails to parse, the raw stem is used as the file
date and `datetime_str` falls back to the time-of-day alone, with no error;
concretely, files `010124.txt` and `010224.txt` with row time `10:00:00`
yield `2024-01-01 10:00:00` and `2024-01-02 10:00:00`, in that row order. -/
theorem C5_file_date_datetime :
    (∀ (f : SrcFile) (df : SrcDF) (fd : String),
        parseFileDate (stemOf f.path) = some fd →
        augmentFile f df = df.rows.map (fun r =>
          { time_str := if df.hasTimeStr then some r.time_str else none
            cells := r.cells
            file_date := fd
            datetime_str := if df.hasTimeStr then some (fd ++ " " ++ r.time_str) else none }))
    ∧ (∀ (f : SrcFile) (df : SrcDF),
        parseFileDate (stemOf f.path) = none →
        augmentFile f df = df.rows.map (fun r =>
          { time_str := if df.hasTimeStr then some r.time_str else none
            cells := r.cells
            file_date := stemOf f.path
            datetime_str := if df.hasTimeStr then some r.time_str else none }))
    ∧ load_multiple_files
        [⟨"010124.txt", some ⟨true, [⟨"10:00:00", []⟩]⟩⟩,
         ⟨"010224.txt", some ⟨true, [⟨"10:00:00", []⟩]⟩⟩]
      = some [⟨some "10:00:00", [], "2024-01-01", some "2024-01-01 10:00:00"⟩,
              ⟨some "10:00:00", [], "2024-01-02", some "2024-01-02 10:00:00"⟩] := by
  refine ⟨fun f df fd hp => ?_, fun f df hp => ?_, by decide⟩
  · simp only [augmentFile]
    rw [hp]
  · simp only [augmentFile]
    rw [hp]

/-- Witness for C5: the parse-success equation at `010124.txt` and the
parse-failure fallback at `notes.txt`. -/
theorem C5_file_date_datetime_witness :
    augmentFile ⟨"010124.txt", some ⟨true, [⟨"10:00:00", ["5.2"]⟩]⟩⟩ ⟨true, [⟨"10:00:00", ["5.2"]⟩]⟩
      = [⟨some "10:00:00", ["5.2"], "2024-01-01", some "2024-01-01 10:00:00"⟩]
    ∧ augmentFile ⟨"notes.txt", some ⟨true, [⟨"10:00:00", []⟩]⟩⟩ ⟨true, [⟨"10:00:00", []⟩]⟩
      = [⟨some "10:00:00", [], "notes", some "10:00:00"⟩] := by
  constructor
  · rw [C5_file_date_datetime.1 ⟨"010124.txt", some ⟨true, [⟨"10:00:00", ["5.2"]⟩]⟩⟩
      ⟨true, [⟨"10:00:00", ["5.2"]⟩]⟩ "2024-01-01" (by decide)]
    decide
  · rw [C5_file_date_datetime.2.1 ⟨"notes.txt", some ⟨true, [⟨"10:00:00", []⟩]⟩⟩
      ⟨true, [⟨"10:00:00", []⟩]⟩ (by decide)]
    decide

theorem rateAt_isSome_of (values : List (Option ℚ)) (hnum : ∀ v ∈ values, v.isSome)
    {i : ℕ} (hi : i + 30 < values.length) : (Core.rateAt values i).isSome := by
  rcases hb : values.get? (i + 30) with _ | vb
  · rw [List.get?_eq_none] at hb; omega
  rcases hA : values.get? i with _ | va
  · rw [List.get?_eq_none] at hA; omega
  have hvb := hnum vb (List.get?_mem hb)
  have hva := hnum va (List.get?_mem hA)
  rcases vb with _ | b
  · simp at hvb
  rcases va with _ | a
  · simp at hva
  simp only [List.get?_eq_getElem?] at hb hA
  simp [Core.rateAt, hb, hA]

theorem mem_rateStarts (values : List (Option ℚ)) (i : ℕ) :
    i ∈ Core.rateStarts values ↔ 30 ∣ i ∧ i + 30 < values.length := by
  unfold Core.rateStarts
  rw [mem_pyRange (by norm_num)]
  exact and_congr_right fun _ => by omega

/-- C6: on a channel with exactly 30 numeric samples the rate loop runs
zero iterations — `range(0, len - 30, 30)` is empty — so the window ending
at the final sample is never computed and `avg_rate_per_min` is `0`. -/
theorem C6_thirty_samples (df : List (String × List String)) (col : String)
    (cells : List String) (hmem : col ∈ Core.TEMP_COLUMNS)
    (hdf : df.lookup col = some cells) (hlen : cells.length = 30)
    (_hnum : ∀ c ∈ cells, (pyFloat c).isSome) :
    (Core.calculate_daily_stats df).lookup col
      = some { min := seriesMin (cells.map pyFloat)
               max := seriesMax (cells.map pyFloat)
               mean := seriesMean (cells.map pyFloat)
               current := (cells.map pyFloat).getLast?
               avg_rate_per_min := 0 }
    ∧ Core.rateStarts (cells.map pyFloat) = [] := by
  have hvlen : (cells.map pyFloat).length = 30 := by simpa using hlen
  have hstarts : Core.rateStarts (cells.map pyFloat) = [] := by
    unfold Core.rateStarts
    rw [hvlen]
    decide
  have havg : Core.avgRatePerMin (cells.map pyFloat) = 0 := by
    unfold Core.avgRatePerMin Core.windowRates
    rw [hstarts, hvlen]
    simp
  have hl := lookup_statsMap Core.TEMP_COLUMNS (fun k => df.lookup k)
    (fun _ cs =>
      let values := cs.map pyFloat
      ({ min := seriesMin values
         max := seriesMax values
         mean := seriesMean values
         current := values.getLast?
         avg_rate_per_min := Core.avgRatePerMin values } : ChannelStats)) hmem hdf
  refine ⟨Eq.trans hl ?_, hstarts⟩
  simp only [havg]

/-- Witness for C6: a channel of thirty numeric samples `1.0`. -/
theorem C6_thirty_samples_witness :
    (Core.calculate_daily_stats [("still", List.replicate 30 "1.0")]).lookup "still"
      = some { min := seriesMin ((List.replicate 30 "1.0").map pyFloat)
               max := seriesMax ((List.replicate 30 "1.0").map pyFloat)
               mean := seriesMean ((List.replicate 30 "1.0").map pyFloat)
               current := ((List.replicate 30 "1.0").map pyFloat).getLast?
               avg_rate_per_min := 0 }
    ∧ Core.rateStarts ((List.replicate 30 "1.0").map pyFloat) = [] :=
  C6_thirty_samples [("still", List.replicate 30 "1.0")] "still" (List.replicate 30 "1.0")
    (by decide) (by decide) (by decide) (by decide)

/-- C7: the duplicated `calculate_daily_stats` of app.py and the core's
routine agree on every dataframe — same channel entries with equal min,
max, mean, current and avg_rate_per_min (the two sources are line-for-line
identical, so their embeddings are definitionally equal). -/
theorem C7_app_core_equal :
    ∀ df : List (String × List String),
      App.calculate_daily_stats df = Core.calculate_daily_stats df :=
  fun _ => rfl

/-- C1 (amended): the rate loop computes one rate per start index `i` with
`30 ∣ i` and `i + 30 < len` — fencepost differences `(v[i+30] - v[i]) / 15`
over starts `0, 30, …` strictly below `len - 30`, so the window ending at
the final sample is never computed; on an all-numeric channel the number of
computed rates is `(len - 30 + 29) / 30`, which for exactly 1800 samples is
59 (not 60), and `avg_rate_per_min` is the mean of those 59 rates; with
fewer than 30 samples `avg_rate_per_min = 0`. -/
theorem C1_amended_windowing :
    (∀ values : List (Option ℚ), values.length < 30 → Core.avgRatePerMin values = 0)
    ∧ (∀ (values : List (Option ℚ)) (i : ℕ),
        i ∈ Core.rateStarts values ↔ 30 ∣ i ∧ i + 30 < values.length)
    ∧ (∀ values : List (Option ℚ), (∀ v ∈ values, v.isSome) → 30 ≤ values.length →
        (Core.windowRates values).length = (values.length - 30 + 29) / 30)
    ∧ (∀ values : List (Option ℚ), values.length = 1800 → (∀ v ∈ values, v.isSome) →
        (Core.windowRates values).length = 59
        ∧ Core.avgRatePerMin values = (Core.windowRates values).sum / 59) := by
  have hlen : ∀ values : List (Option ℚ), (∀ v ∈ values, v.isSome) → 30 ≤ values.length →
      (Core.windowRates values).length = (values.length - 30 + 29) / 30 := by
    intro values hnum _h30
    unfold Core.windowRates
    rw [filterMap_length_all_isSome _ _ (fun i hi =>
      rateAt_isSome_of values hnum ((mem_rateStarts values i).mp hi).2)]
    simp [Core.rateStarts, pyRange]
  refine ⟨?_, fun values i => mem_rateStarts values i, hlen, ?_⟩
  · intro values h
    unfold Core.avgRatePerMin
    rw [if_neg (by omega)]
  · intro values h1800 hnum
    have hl : (Core.windowRates values).length = 59 := by
      rw [hlen values hnum (by omega), h1800]
    refine ⟨hl, ?_⟩
    unfold Core.avgRatePerMin
    rw [if_pos (by omega), if_neg (by intro h0; rw [h0] at hl; simp at hl), hl]
    norm_num

/-- Witness for C1's amended statement: a one-sample channel gives rate 0,
and the ramp channel of 1800 numeric samples gives 59 computed rates whose
mean is `avg_rate_per_min`. -/
theorem C1_amended_windowing_witness :
    Core.avgRatePerMin [some (5 : ℚ)] = 0
    ∧ (Core.windowRates (rampValues 1800)).length = 59
    ∧ Core.avgRatePerMin (rampValues 1800) = (Core.windowRates (rampValues 1800)).sum / 59 := by
  have h4 := C1_amended_windowing.2.2.2 (rampValues 1800)
    (by unfold rampValues; rw [List.length_map, List.length_range])
    (fun v hv => by
      simp only [rampValues, List.mem_map] at hv
      obtain ⟨j, _, rfl⟩ := hv
      rfl)
  exact ⟨C1_amended_windowing.1 [some (5 : ℚ)] (by simp), h4.1, h4.2⟩

/-- Counterexample for C1 as stated: on the strictly increasing ramp of
exactly 1800 numeric samples the claim demands the mean of the 60 complete
partition windows' rates (each `(v[30k+29] - v[30k]) / 15 = 29/15`), but
the code computes 59 fencepost rates `(v[i+30] - v[i]) / 15 = 2` and
returns 2 ≠ 29/15. -/
theorem C1_counterexample :
    Core.avgRatePerMin (rampValues 1800) = 2
    ∧ claimedAvgRate (rampValues 1800) = 29 / 15
    ∧ (claimedPartitionRates (rampValues 1800)).length = 60
    ∧ (Core.windowRates (rampValues 1800)).length = 59
    ∧ Core.avgRatePerMin (rampValues 1800) ≠ claimedAvgRate (rampValues 1800) := by
  have h1 : Core.avgRatePerMin (rampValues 1800) = 2 := by decide
  have h2 : claimedAvgRate (rampValues 1800) = 29 / 15 := by decide
  refine ⟨h1, h2, by decide, by decide, ?_⟩
  rw [h1, h2]
  norm_num

/-- Counterexample for C2 as stated: on a channel whose cells are
`["1.0", "abc"]` the last cell does not coerce, so the claim demands
`current = 1.0` (the last coercing value); the code returns the raw last
element of the coerced series, which is `NaN` (`some none`) — neither the
last numeric value nor null. -/
theorem C2_counterexample :
    (Core.calculate_daily_stats [("full range", ["1.0", "abc"])]).lookup "full range"
      = some { min := some 1, max := some 1, mean := some 1, current := some none,
               avg_rate_per_min := 0 }
    ∧ specLastNumeric ["1.0", "abc"] = some 1
    ∧ (some (none : Option ℚ) : Option (Option ℚ)) ≠ some (some (1 : ℚ))
    ∧ (some (none : Option ℚ) : Option (Option ℚ)) ≠ none :=
  ⟨by decide, by decide, by decide, by decide⟩

/-- C2 (amended): for every requested channel present in the dataset,
`current` is the raw last element of the coerced series — the final cell's
numeric value if it coerces, `NaN` if it does not — and it is null exactly
when the channel has zero rows; in particular a channel whose last cell
coerces (e.g. trailing values `[NaN, NaN, 5.2]`) yields that number, not
null and not NaN. -/
theorem C2_current_amended (df : List (String × List String)) (col : String)
    (cells : List String) (hmem : col ∈ Core.TEMP_COLUMNS)
    (hdf : df.lookup col = some cells) :
    (Core.calculate_daily_stats df).lookup col
      = some { min := seriesMin (cells.map pyFloat)
               max := seriesMax (cells.map pyFloat)
               mean := seriesMean (cells.map pyFloat)
               current := (cells.map pyFloat).getLast?
               avg_rate_per_min := Core.avgRatePerMin (cells.map pyFloat) }
    ∧ ((cells.map pyFloat).getLast? = none ↔ cells = []) := by
  refine ⟨lookup_statsMap Core.TEMP_COLUMNS (fun k => df.lookup k)
    (fun _ cs =>
      let values := cs.map pyFloat
      ({ min := seriesMin values
         max := seriesMax values
         mean := seriesMean values
         current := values.getLast?
         avg_rate_per_min := Core.avgRatePerMin values } : ChannelStats)) hmem hdf, ?_⟩
  rw [List.getLast?_eq_none_iff, List.map_eq_nil_iff]

/-- Witness for C2's amended statement: a channel `["nan", "nan", "5.2"]`
whose last cell coerces; `current` is `5.2`. -/
theorem C2_current_amended_witness :
    (Core.calculate_daily_stats [("full range", ["nan", "nan", "5.2"])]).lookup "full range"
      = some { min := seriesMin (["nan", "nan", "5.2"].map pyFloat)
               max := seriesMax (["nan", "nan", "5.2"].map pyFloat)
               mean := seriesMean (["nan", "nan", "5.2"].map pyFloat)
               current := (["nan", "nan", "5.2"].map pyFloat).getLast?
               avg_rate_per_min := Core.avgRatePerMin (["nan", "nan", "5.2"].map pyFloat) }
    ∧ (["nan", "nan", "5.2"].map pyFloat).getLast? = some (some ((26 : ℚ) / 5)) := by
  refine ⟨(C2_current_amended [("full range", ["nan", "nan", "5.2"])] "full range"
    ["nan", "nan", "5.2"] (by decide) (by decide)).1, by decide⟩

theorem lookup_append_of_some {l1 l2 : List (String × String)} {k v : String}
    (h : l1.lookup k = some v) : (l1 ++ l2).lookup k = some v := by
  rw [List.lookup_append, h]
  rfl

theorem processSecretLine_preserves (d : List (String × String)) (l : String) (k v : String)
    (h : d.lookup k = some v) : (processSecretLine d l).lookup k = some v := by
  unfold processSecretLine
  split
  · exact h
  · split
    · exact h
    · rename_i x kv heq
      show List.lookup k
        (if (List.lookup (pyStrip (String.mk kv.1)) d).isSome = true then d
         else d ++ [(pyStrip (String.mk kv.1), pyStrip (String.mk kv.2))]) = some v
      split
      · exact h
      · exact lookup_append_of_some h

theorem foldl_process_preserves (lines : List String) (d : List (String × String))
    (k v : String) (h : d.lookup k = some v) :
    (lines.foldl processSecretLine d).lookup k = some v := by
  induction lines generalizing d with
  | nil => exact h
  | cons l lines ih => exact ih _ (processSecretLine_preserves d l k v h)

theorem envFold_lookup (env : String → Option String) (k v : String)
    (he : env k = some v) (hv : v ≠ "") :
    ∀ (K : List String) (d : List (String × String)),
      (d.lookup k = some v ∨ (d.lookup k = none ∧ k ∈ K)) →
      (K.foldl (envStep env) d).lookup k = some v := by
  intro K
  induction K with
  | nil =>
    rintro d (h | ⟨_, h⟩)
    · exact h
    · simp at h
  | cons key K ih =>
    rintro d (h | ⟨hnone, hmem⟩)
    · refine ih _ (Or.inl ?_)
      unfold envStep
      split
      · split
        · exact lookup_append_of_some h
        · exact h
      · exact h
    · by_cases hk : k = key
      · subst hk
        refine ih _ (Or.inl ?_)
        unfold envStep
        rw [he]
        show List.lookup k (if v ≠ "" then d ++ [(k, v)] else d) = some v
        rw [if_pos hv, List.lookup_append, hnone]
        simp
      · rcases List.mem_cons.mp hmem with h' | h'
        · exact absurd h' hk
        · refine ih _ (Or.inr ⟨?_, h'⟩)
          unfold envStep
          split
          · split
            · rw [List.lookup_append, hnone]
              simp [List.lookup_cons, beq_eq_false_iff_ne.mpr hk]
            · exact hnone
          · exact hnone

theorem processSecretLine_skip (d : List (String × String)) (l : String)
    (h : (pyStrip l).data.head? = some '#' ∨ splitFirstOn '=' (pyStrip l).data = none) :
    processSecretLine d l = d := by
  unfold processSecretLine
  rcases h with h | h
  · rw [if_pos h]
  · by_cases hh : (pyStrip l).data.head? = some '#'
    · rw [if_pos hh]
    · rw [if_neg hh, h]

/-- Counterexample for C10 as stated: an environment that defines
`SLACK_BOT_TOKEN` as the empty string and a secrets file that also defines
it; the claim demands the environment value to win, but the code treats a
falsy environment value as unset and the file value wins. -/
theorem C10_counterexample :
    (load_secrets (fun k => if k = "SLACK_BOT_TOKEN" then some "" else none)
        (some ["SLACK_BOT_TOKEN=filetoken"])).lookup "SLACK_BOT_TOKEN" = some "filetoken"
    ∧ (fun k => if k = "SLACK_BOT_TOKEN" then some "" else none) "SLACK_BOT_TOKEN"
        = some ""
    ∧ (some "filetoken" : Option String) ≠ some "" :=
  ⟨by decide, by decide, by decide⟩

/-- C10 (amended): for every secret key, a NONEMPTY environment value takes
precedence over the secrets file (an environment variable set to the empty
string is falsy and treated as unset, letting the file value through — the
only change the counterexample forces); file lines whose stripped text
starts with `#`, and lines without `=`, contribute nothing; a contributing
line is split at the first `=` into key and value. -/
theorem C10_secrets_amended :
    (∀ (env : String → Option String) (file : Option (List String)) (k v : String),
        k ∈ secret_keys → env k = some v → v ≠ "" →
        (load_secrets env file).lookup k = some v)
    ∧ (∀ (env : String → Option String) (pre post : List String) (l : String),
        ((pyStrip l).data.head? = some '#' ∨ splitFirstOn '=' (pyStrip l).data = none) →
        load_secrets env (some (pre ++ l :: post)) = load_secrets env (some (pre ++ post)))
    ∧ (∀ cs ds : List Char, '=' ∉ cs → splitFirstOn '=' (cs ++ '=' :: ds) = some (cs, ds)) := by
  refine ⟨?_, ?_, ?_⟩
  · intro env file k v hk he hv
    have hs0 : ((secret_keys.foldl (envStep env) []).lookup k = some v) :=
      envFold_lookup env k v he hv secret_keys [] (Or.inr ⟨rfl, hk⟩)
    rcases file with _ | lines
    · exact hs0
    · exact foldl_process_preserves lines _ k v hs0
  · intro env pre post l hl
    show (pre ++ l :: post).foldl processSecretLine _ = (pre ++ post).foldl processSecretLine _
    rw [List.foldl_append, List.foldl_append, List.foldl_cons,
      processSecretLine_skip _ l hl]
  · intro cs ds h
    induction cs with
    | nil => rfl
    | cons c cs ih =>
      have hc : ¬ c = '=' := fun hcc => h (hcc ▸ List.mem_cons_self c cs)
      rw [List.cons_append]
      show (if c = '=' then some ([], cs ++ '=' :: ds)
        else (splitFirstOn '=' (cs ++ '=' :: ds)).map (fun p => (c :: p.1, p.2)))
          = some (c :: cs, ds)
      rw [if_neg hc, ih (fun hm => h (List.mem_cons_of_mem c hm))]
      rfl

/-- Witness for C10's amended statement: a nonempty environment token wins
over a file line for the same key even with a comment line present, and a
concrete first-`=` split. -/
theorem C10_secrets_amended_witness :
    (load_secrets (fun k => if k = "SLACK_APP_TOKEN" then some "envtok" else none)
        (some ["# comment", "SLACK_APP_TOKEN=filetok"])).lookup "SLACK_APP_TOKEN"
      = some "envtok"
    ∧ load_secrets (fun _ => none) (some ("# comment" :: ["A=1"]))
        = load_secrets (fun _ => none) (some ["A=1"])
    ∧ splitFirstOn '=' ("ab".data ++ '=' :: "c=d".data) = some ("ab".data, "c=d".data) := by
  refine ⟨C10_secrets_amended.1 _ _ "SLACK_APP_TOKEN" "envtok" (by decide) (by decide)
      (by decide),
    ?_, C10_secrets_amended.2.2 "ab".data "c=d".data (by decide)⟩
  have h := C10_secrets_amended.2.1 (fun _ => none) [] ["A=1"] "# comment" (Or.inl (by decide))
  simpa using h

end ClaimTheorems
